import Mathlib

/-
Verification of the interval algebra of the cql-execution runtime
(src/src/datatypes/interval.js) via a shallow embedding.

The Interval operators themselves are translated line by line from
src/src/datatypes/interval.js.  The collaborator layers (three-valued
logic, the three-valued comparison layer, Uncertainty, Quantity, and the
successor/predecessor/sentinel math utilities) are not part of the given
sources; they are modelled from the specification (spec.md sections 3,
4.1, 4.2, 4.3).  The modelled point universe consists of plain numbers
(as rationals), quantities, and uncertainties; the date/time family is
not modelled, so the source branches that are only reachable for
date/time points are noted and omitted where they occur.
-/

set_option maxHeartbeats 1000000

namespace CQL

/-- Three-valued logic values: true / false / unknown.  The source encodes
these as the JavaScript values true / false / null. -/
inductive TV where
  | t
  | f
  | u
deriving DecidableEq, Repr

/-- Modelled from the spec (section 4.1): three-valued AND — false if either
is false; true if both true; otherwise unknown. -/
def TV.and3 : TV → TV → TV
  | .f, _ => .f
  | _, .f => .f
  | .t, .t => .t
  | _, _ => .u

/-- Modelled from the spec (section 4.1): three-valued OR — true if either is
true; false if both false; otherwise unknown. -/
def TV.or3 : TV → TV → TV
  | .t, _ => .t
  | _, .t => .t
  | .f, .f => .f
  | _, _ => .u

/-- Modelled from the spec (section 4.1): three-valued NOT. -/
def TV.not3 : TV → TV
  | .t => .f
  | .f => .t
  | .u => .u

/-- Point values (spec section 3): plain numbers, quantities (value plus
unit), and numeric uncertainties.  The date/time family is outside the
modelled universe.  Uncertainty bounds are themselves point values, as in
the source, where `toClosed` can build an Uncertainty whose bounds are
quantities or other resolved boundary values. -/
inductive Pt where
  | num (q : ℚ)
  | qty (value : ℚ) (unit : String)
  | unc (lo hi : Pt)
deriving DecidableEq, Repr

/-- A boundary slot: a point value or null (JS null / undefined). -/
abbrev Val := Option Pt

/-- Error messages used by the embedding (the exact texts are not
load-bearing; they stand for the exceptions the source throws). -/
def msgContains : String := "Argument to contains must be a point"

def msgExceptArg : String := "Argument to except must be an interval"

def msgCmp : String := "Cannot compare values of different or unsupported types"

def msgUnits : String := "Cannot compare quantities with differing units"

def msgSucc : String := "Successor is not defined for a null value"

def msgPred : String := "Predecessor is not defined for a null value"

def msgMinMax : String := "Cannot determine the minimum or maximum value"

def msgWidthUnits : String := "Cannot calculate width of Quantity Interval with different units"

def msgWidthNull : String := "TypeError: cannot read isQuantity of null"

def msgWidthMixed : String := "Width of mixed-type boundaries is outside the modelled universe"

def msgPtSameAs : String := "sameAs is not a function on this point type"

/-- Modelled from the spec (section 3): the numeric extreme sentinels used
for unbounded closed boundaries.  The exact magnitudes are not
load-bearing; they model the source's MIN/MAX float values. -/
def maxNum : ℚ := 10 ^ 20

/-- Modelled from the spec (section 3): minimum numeric sentinel. -/
def minNum : ℚ := -(10 ^ 20)

/-- JS `typeof x === 'number' || x.isDateTime || x.isQuantity || x.isDate`:
which point values the source's `toClosed` treats as steppable.  Numbers
and quantities are steppable; uncertainties are not. -/
def Pt.isSteppable : Pt → Bool
  | .num _ => true
  | .qty _ _ => true
  | .unc _ _ => false

/-- Modelled from the spec (sections 2 and 3): successor stepping on point
values — numbers step by 1, quantities step their value, uncertainties
step both bounds. -/
def Pt.succP : Pt → Pt
  | .num q => .num (q + 1)
  | .qty v unit => .qty (v + 1) unit
  | .unc lo hi => .unc lo.succP hi.succP

/-- Modelled from the spec (sections 2 and 3): predecessor stepping. -/
def Pt.predP : Pt → Pt
  | .num q => .num (q - 1)
  | .qty v unit => .qty (v - 1) unit
  | .unc lo hi => .unc lo.predP hi.predP

/-- Modelled from the spec (util/math successor): stepping a null value is
undefined and raises. -/
def successor : Val → Except String Pt
  | none => .error msgSucc
  | some p => .ok p.succP

/-- Modelled from the spec (util/math predecessor). -/
def predecessor : Val → Except String Pt
  | none => .error msgPred
  | some p => .ok p.predP

/-- Modelled from the spec (util/math minValueForInstance): the type-specific
minimum sentinel; undefined (raises) for null and for uncertainties. -/
def minValueForInstance : Val → Except String Pt
  | some (.num _) => .ok (.num minNum)
  | some (.qty _ unit) => .ok (.qty minNum unit)
  | some (.unc _ _) => .error msgMinMax
  | none => .error msgMinMax

/-- Modelled from the spec (util/math maxValueForInstance). -/
def maxValueForInstance : Val → Except String Pt
  | some (.num _) => .ok (.num maxNum)
  | some (.qty _ unit) => .ok (.qty maxNum unit)
  | some (.unc _ _) => .error msgMinMax
  | none => .error msgMinMax

/-- The numeric range denoted by a point value for range-aware comparison
(spec section 4.2): a number is the degenerate range, a numeric
uncertainty is its range.  Quantities and uncertainties over non-numbers
do not denote a plain numeric range and are a comparison usage error when
they reach this fallback. -/
def rangeOf : Pt → Except String (ℚ × ℚ)
  | .num q => .ok (q, q)
  | .unc (.num a) (.num b) => .ok (a, b)
  | _ => .error msgCmp

/-- Modelled from the spec (section 4.3): range-aware less-than — true iff
the whole left range is below the whole right range, false iff the left
range starts at or above the right range's top, otherwise unknown. -/
def lt3 (a b : ℚ × ℚ) : TV :=
  if a.2 < b.1 then .t else if b.2 ≤ a.1 then .f else .u

/-- Modelled from the spec (section 4.3): range-aware less-than-or-equal. -/
def le3 (a b : ℚ × ℚ) : TV :=
  if a.2 ≤ b.1 then .t else if b.2 < a.1 then .f else .u

/-- Modelled from the spec (sections 4.2 and 4.3): range-aware equality —
true only for equal degenerate ranges, false for disjoint ranges,
otherwise unknown. -/
def eq3 (a b : ℚ × ℚ) : TV :=
  if a.1 = b.1 ∧ a.2 = b.2 ∧ a.1 = a.2 then .t
  else if a.2 < b.1 ∨ b.2 < a.1 then .f
  else .u

/-- Modelled from the spec (section 4.2): the generic three-valued
comparison dispatcher — unknown when either operand is null; quantities
compare by value when units match and are a usage error otherwise;
everything else compares through its numeric range. -/
def cmpWith (R : ℚ × ℚ → ℚ × ℚ → TV) (a b : Val) : Except String TV :=
  match a, b with
  | none, _ => .ok .u
  | _, none => .ok .u
  | some (.qty v1 u1), some (.qty v2 u2) =>
      if u1 = u2 then .ok (R (v1, v1) (v2, v2)) else .error msgUnits
  | some pa, some pb =>
      (rangeOf pa).bind fun ra => (rangeOf pb).bind fun rb => .ok (R ra rb)

/-- Modelled from the spec (section 4.2): three-valued equality. -/
def cmpEquals (a b : Val) : Except String TV := cmpWith eq3 a b

/-- Modelled from the spec (section 4.2): three-valued less-than.  The
precision argument only affects temporal points, which are outside the
modelled universe; it is kept for signature fidelity. -/
def cmpLessThan (a b : Val) (_prec : Option Nat) : Except String TV := cmpWith lt3 a b

/-- Modelled from the spec (section 4.2): three-valued less-than-or-equal. -/
def cmpLessThanOrEquals (a b : Val) (_prec : Option Nat) : Except String TV := cmpWith le3 a b

/-- Modelled from the spec (section 4.2): three-valued greater-than. -/
def cmpGreaterThan (a b : Val) (_prec : Option Nat) : Except String TV :=
  cmpWith (fun x y => lt3 y x) a b

/-- Modelled from the spec (section 4.2): three-valued
greater-than-or-equal. -/
def cmpGreaterThanOrEquals (a b : Val) (_prec : Option Nat) : Except String TV :=
  cmpWith (fun x y => le3 y x) a b

/-- The Interval value object (interval.js lines 12-18): two boundary
slots, each with a closed flag. -/
structure Interval where
  low : Val
  high : Val
  lowClosed : Bool
  highClosed : Bool
deriving DecidableEq, Repr

/-- The shape of an argument to the polymorphic operators: a point value
(possibly null) or an interval.  The source distinguishes these with the
isInterval marker. -/
inductive Arg where
  | pt (p : Val)
  | iv (i : Interval)
deriving DecidableEq, Repr

namespace Interval

/-- interval.js lines 547-583 (`toClosed`): normalize to closed boundaries.
For steppable points, an open bounded boundary is stepped inward, an
unbounded closed boundary becomes the type's sentinel, and a boundary
that is still null afterward is wrapped in an Uncertainty spanning to the
other (already resolved) boundary.  Non-steppable points pass through
with the flags forced closed.  Inside the steppable branch the sentinel
and stepping computations cannot fail, so the result is total. -/
def toClosed (A : Interval) : Interval :=
  let point : Val := match A.low with | some l => some l | none => A.high
  match point with
  | some p =>
    if p.isSteppable then
      let low0 : Val :=
        if A.lowClosed ∧ A.low = none then
          match minValueForInstance (some p) with | .ok m => some m | .error _ => none
        else if ¬A.lowClosed ∧ A.low ≠ none then A.low.map Pt.succP
        else A.low
      let high0 : Val :=
        if A.highClosed ∧ A.high = none then
          match maxValueForInstance (some p) with | .ok m => some m | .error _ => none
        else if ¬A.highClosed ∧ A.high ≠ none then A.high.map Pt.predP
        else A.high
      match low0, high0 with
      | none, some h =>
          let lw : Pt := match minValueForInstance (some p) with
            | .ok m => .unc m h
            | .error _ => .unc h h
          Interval.mk (some lw) (some h) true true
      | some l, none =>
          let hw : Pt := match maxValueForInstance (some p) with
            | .ok m => .unc l m
            | .error _ => .unc l l
          Interval.mk (some l) (some hw) true true
      | some l, some h => Interval.mk (some l) (some h) true true
      | none, none =>
          -- unreachable: both boundaries null forces a null point, which
          -- takes the pass-through branch below
          Interval.mk none none true true
    else Interval.mk A.low A.high true true
  | none => Interval.mk A.low A.high true true

/-- interval.js lines 37-72 (`contains`): the two closed-boundary equality
short-circuits, the interval-argument usage error, then the three-valued
AND of the boundary tests selected by the open/closed decision table.
For an interval argument the source first evaluates the two equality
short-circuits, which can never be true for a point-or-null boundary
against an interval, and then throws. -/
def contains (A : Interval) (item : Arg) (prec : Option Nat) : Except String TV :=
  match item with
  | .iv _ => .error msgContains
  | .pt p =>
    (if A.lowClosed ∧ A.low ≠ none then cmpEquals A.low p else .ok .f).bind fun c1 =>
    if c1 = .t then .ok .t
    else
      (if A.highClosed ∧ A.high ≠ none then cmpEquals A.high p else .ok .f).bind fun c2 =>
      if c2 = .t then .ok .t
      else
        (if A.lowClosed ∧ A.low = none then .ok .t
         else if A.lowClosed then cmpLessThanOrEquals A.low p prec
         else cmpLessThan A.low p prec).bind fun lowRes =>
        (if A.highClosed ∧ A.high = none then .ok .t
         else if A.highClosed then cmpGreaterThanOrEquals A.high p prec
         else cmpGreaterThan A.high p prec).bind fun highRes =>
        .ok (TV.and3 lowRes highRes)

/-- interval.js lines 84-94 (`includes`): a point argument is a synonym for
contains; for an interval argument, closed-form boundary domination. -/
def includes (A : Interval) (other : Arg) (prec : Option Nat) : Except String TV :=
  match other with
  | .pt p => contains A (.pt p) prec
  | .iv b =>
    let a := A.toClosed
    let bc := b.toClosed
    (cmpLessThanOrEquals a.low bc.low prec).bind fun r1 =>
    (cmpGreaterThanOrEquals a.high bc.high prec).bind fun r2 =>
    .ok (TV.and3 r1 r2)

/-- interval.js lines 105-119 (`overlaps`): a point argument is treated as
the degenerate pair, an interval argument contributes its closed-form
boundaries. -/
def overlaps (A : Interval) (item : Arg) (prec : Option Nat) : Except String TV :=
  let closed := A.toClosed
  let lowhigh : Val × Val := match item with
    | .iv i => let ic := i.toClosed; (ic.low, ic.high)
    | .pt p => (p, p)
  (cmpLessThanOrEquals closed.low lowhigh.2 prec).bind fun r1 =>
  (cmpGreaterThanOrEquals closed.high lowhigh.1 prec).bind fun r2 =>
  .ok (TV.and3 r1 r2)

/-- interval.js lines 121-128 (`overlapsAfter`): the neighbouring high
boundary is the argument's closed-form high, or the point itself. -/
def overlapsAfter (A : Interval) (item : Arg) (prec : Option Nat) : Except String TV :=
  let closed := A.toClosed
  let high : Val := match item with
    | .iv i => i.toClosed.high
    | .pt p => p
  (cmpLessThanOrEquals closed.low high prec).bind fun r1 =>
  (cmpGreaterThan closed.high high prec).bind fun r2 =>
  .ok (TV.and3 r1 r2)

/-- interval.js lines 130-137 (`overlapsBefore`). -/
def overlapsBefore (A : Interval) (item : Arg) (prec : Option Nat) : Except String TV :=
  let closed := A.toClosed
  let low : Val := match item with
    | .iv i => i.toClosed.low
    | .pt p => p
  (cmpLessThan closed.low low prec).bind fun r1 =>
  (cmpGreaterThanOrEquals closed.high low prec).bind fun r2 =>
  .ok (TV.and3 r1 r2)

/-- interval.js lines 346-353 (`equals`): false for a non-interval argument,
otherwise the three-valued AND of closed-form boundary equalities. -/
def equals (A : Interval) (other : Arg) : Except String TV :=
  match other with
  | .iv b =>
    let a := A.toClosed
    let bc := b.toClosed
    (cmpEquals a.low bc.low).bind fun r1 =>
    (cmpEquals a.high bc.high).bind fun r2 =>
    .ok (TV.and3 r1 r2)
  | .pt _ => .ok .f

/-- interval.js lines 384-397 (`meetsAfter`), the body of the try block.
The date/time precision branch of the source is unreachable for the
modelled point universe and is omitted; the generic branch compares this
interval's closed low with the successor of the other's closed high. -/
def meetsAfterBody (A B : Interval) (_prec : Option Nat) : Except String TV :=
  (successor B.toClosed.high).bind fun s =>
  cmpEquals A.toClosed.low (some s)

/-- interval.js lines 384-397 (`meetsAfter`): any exception raised inside
the body is caught and reported as false. -/
def meetsAfter (A B : Interval) (prec : Option Nat) : TV :=
  match meetsAfterBody A B prec with
  | .ok v => v
  | .error _ => .f

/-- interval.js lines 399-412 (`meetsBefore`), the body of the try block
(the date/time precision branch is unreachable for the modelled points
and is omitted). -/
def meetsBeforeBody (A B : Interval) (_prec : Option Nat) : Except String TV :=
  (predecessor B.toClosed.low).bind fun s =>
  cmpEquals A.toClosed.high (some s)

/-- interval.js lines 399-412 (`meetsBefore`): exceptions are caught and
reported as false. -/
def meetsBefore (A B : Interval) (prec : Option Nat) : TV :=
  match meetsBeforeBody A B prec with
  | .ok v => v
  | .error _ => .f

/-- interval.js lines 377-382 (`meets`): three-valued OR of meetsBefore and
meetsAfter. -/
def meets (A B : Interval) (prec : Option Nat) : TV :=
  TV.or3 (meetsBefore A B prec) (meetsAfter A B prec)

end Interval

/-- interval.js lines 596-600 (`areNumeric`): both values are numbers or
uncertainties over numbers.  The source only inspects the uncertainty's
low bound; uncertainties mixing numeric and non-numeric bounds are
outside the modelled universe. -/
def numUncBounds : Val → Option (ℚ × ℚ)
  | some (.num q) => some (q, q)
  | some (.unc (.num a) (.num b)) => some (a, b)
  | _ => none

/-- interval.js lines 596-600 (`areNumeric`). -/
def areNumeric (x y : Val) : Bool :=
  (numUncBounds x).isSome && (numUncBounds y).isSome

/-- interval.js lines 602-616 (`lowestNumericUncertainty`): wrap both sides
as uncertainties, take the pointwise minimum bounds, and collapse back to
a scalar when the bounds coincide.  Only called under an areNumeric
guard; the fallback arm is unreachable. -/
def lowestNumericUncertainty (x y : Val) : Val :=
  match numUncBounds x, numUncBounds y with
  | some (xl, xh), some (yl, yh) =>
      let low := if xl < yl then xl else yl
      let high := if xh < yh then xh else yh
      if low ≠ high then some (.unc (.num low) (.num high)) else some (.num low)
  | _, _ => x

/-- interval.js lines 618-632 (`highestNumericUncertainty`): pointwise
maximum bounds. -/
def highestNumericUncertainty (x y : Val) : Val :=
  match numUncBounds x, numUncBounds y with
  | some (xl, xh), some (yl, yh) =>
      let low := if xl > yl then xl else yl
      let high := if xh > yh then xh else yh
      if low ≠ high then some (.unc (.num low) (.num high)) else some (.num low)
  | _, _ => x

namespace Interval

/-- interval.js lines 145-176: the boundary-selection core of `union`,
reached once the overlaps-or-meets guard has passed.  The two date/time
switch cases of the source are unreachable for the modelled points and
are omitted; the remaining cases are translated in source order. -/
def unionChoose (A B : Interval) : Except String Interval :=
  let a := A.toClosed
  let b := B.toClosed
  (cmpLessThanOrEquals a.low b.low none).bind fun t1 =>
  (if t1 = .t then .ok (A.low, A.lowClosed)
   else
     (cmpGreaterThanOrEquals a.low b.low none).bind fun t2 =>
     if t2 = .t then .ok (B.low, B.lowClosed)
     else if areNumeric a.low b.low then .ok (lowestNumericUncertainty a.low b.low, true)
     else (.ok (A.low, A.lowClosed) : Except String (Val × Bool))).bind fun lp =>
  (cmpGreaterThanOrEquals a.high b.high none).bind fun t3 =>
  (if t3 = .t then .ok (A.high, A.highClosed)
   else
     (cmpLessThanOrEquals a.high b.high none).bind fun t4 =>
     if t4 = .t then .ok (B.high, B.highClosed)
     else if areNumeric a.high b.high then .ok (highestNumericUncertainty a.high b.high, true)
     else (.ok (A.high, A.highClosed) : Except String (Val × Bool))).bind fun hp =>
  .ok (Interval.mk lp.1 hp.1 lp.2 hp.2)

/-- interval.js lines 139-180 (`union`): defined when the intervals overlap
or meet (JS truthiness: the guard passes exactly when either operand
evaluates to true), otherwise the no-result sentinel null.  The
non-interval argument guard of the source is enforced by the embedding's
types. -/
def union (A B : Interval) : Except String (Option Interval) :=
  (A.overlaps (.iv B) none).bind fun ov =>
  if ov = .t ∨ A.meets B none = .t then (unionChoose A B).map some
  else .ok none

/-- interval.js lines 188-219: the boundary-selection core of `intersect`,
picking the inward boundary on decided comparisons and merging ambiguous
numeric boundaries with the uncertainty helpers swapped relative to
union. -/
def intersectChoose (A B : Interval) : Except String Interval :=
  let a := A.toClosed
  let b := B.toClosed
  (cmpGreaterThanOrEquals a.low b.low none).bind fun t1 =>
  (if t1 = .t then .ok (A.low, A.lowClosed)
   else
     (cmpLessThanOrEquals a.low b.low none).bind fun t2 =>
     if t2 = .t then .ok (B.low, B.lowClosed)
     else if areNumeric a.low b.low then .ok (highestNumericUncertainty a.low b.low, true)
     else (.ok (A.low, A.lowClosed) : Except String (Val × Bool))).bind fun lp =>
  (cmpLessThanOrEquals a.high b.high none).bind fun t3 =>
  (if t3 = .t then .ok (A.high, A.highClosed)
   else
     (cmpGreaterThanOrEquals a.high b.high none).bind fun t4 =>
     if t4 = .t then .ok (B.high, B.highClosed)
     else if areNumeric a.high b.high then .ok (lowestNumericUncertainty a.high b.high, true)
     else (.ok (A.high, A.highClosed) : Except String (Val × Bool))).bind fun hp =>
  .ok (Interval.mk lp.1 hp.1 lp.2 hp.2)

/-- interval.js lines 182-223 (`intersect`): defined only when the
intervals decidably overlap, otherwise the no-result sentinel. -/
def intersect (A B : Interval) : Except String (Option Interval) :=
  (A.overlaps (.iv B) none).bind fun ov =>
  if ov = .t then (intersectChoose A B).map some
  else .ok none

/-- interval.js lines 225-250 (`except`): null argument yields null, a
non-interval argument is a usage error; a decided non-overlap returns the
receiver; a one-sided decided overlap returns the remaining sub-interval
with the adjacent boundary's closed state flipped; everything else,
including an unknown overlap, yields the no-result sentinel. -/
def except (A : Interval) (other : Arg) : Except String (Option Interval) :=
  match other with
  | .pt none => .ok none
  | .pt (some _) => .error msgExceptArg
  | .iv B =>
    (A.overlaps (.iv B) none).bind fun ol =>
    if ol = .t then
      (A.overlapsBefore (.iv B) none).bind fun olb =>
      (A.overlapsAfter (.iv B) none).bind fun ola =>
      if olb = .t ∧ ola = .f then
        .ok (some (Interval.mk A.low B.low A.lowClosed (!B.lowClosed)))
      else if ola = .t ∧ olb = .f then
        .ok (some (Interval.mk B.high A.high (!B.highClosed) A.highClosed))
      else .ok none
    else if ol = .f then .ok (some A)
    else .ok none

/-- interval.js lines 414-423 (`start`): an unbounded closed low resolves
to the type minimum sentinel computed from the high boundary (which can
raise), an unbounded open low resolves to null, and a bounded low
resolves through toClosed. -/
def start (A : Interval) : Except String Val :=
  match A.low with
  | none =>
      if A.lowClosed then (minValueForInstance A.high).map some
      else .ok none
  | some _ => .ok A.toClosed.low

/-- interval.js lines 425-434 (`end`): dual of start.  Named endB because
end is a reserved word in Lean. -/
def endB (A : Interval) : Except String Val :=
  match A.high with
  | none =>
      if A.highClosed then (maxValueForInstance A.low).map some
      else .ok none
  | some _ => .ok A.toClosed.high

end Interval

/-- JS strict equality as used by `sameAs` on resolved endpoints: number
primitives compare by value, null equals null, and any comparison
involving a distinct object (quantity or uncertainty) is false. -/
def jsEqq : Val → Val → Bool
  | none, none => true
  | some (.num x), some (.num y) => x == y
  | _, _ => false

/-- JS `typeof v === 'number'`. -/
def isNumVal : Val → Bool
  | some (.num _) => true
  | _ => false

/-- Modelled from the spec (section 4.2): a point-level precision-aware
`sameAs` method exists only on the temporal point types, which are
outside the modelled universe; for numbers, quantities, uncertainties and
null the method is absent and calling it is a type error. -/
def ptSameAs (_a _b : Val) (_prec : Option Nat) : Except String TV :=
  .error msgPtSameAs

namespace Interval

/-- interval.js lines 298-327: the tail of `sameAs` after the two
open-ended-null blocks — the open-null unknown check (lines 299-306), the
two fully-unbounded special cases (lines 308-319), and the final endpoint
comparison (lines 321-327), where the JS conjunction of tri-valued
point-level sameAs results returns the first non-true operand. -/
def sameAsTail (A B : Interval) (prec : Option Nat) : Except String TV :=
  if (A.low.isNone && !A.lowClosed) || (A.high.isNone && !A.highClosed) ||
     (B.low.isNone && !B.lowClosed) || (B.high.isNone && !B.highClosed) then
    .ok .u
  else if A.lowClosed && A.low.isNone && A.highClosed && A.high.isNone then
    .ok (if B.lowClosed && B.low.isNone && B.highClosed && B.high.isNone then .t else .f)
  else if B.lowClosed && B.low.isNone && B.highClosed && B.high.isNone then
    .ok .f
  else if isNumVal A.low then
    A.start.bind fun s1 => B.start.bind fun s2 =>
    if !jsEqq s1 s2 then .ok .f
    else
      A.endB.bind fun e1 => B.endB.bind fun e2 =>
      .ok (if jsEqq e1 e2 then .t else .f)
  else
    A.start.bind fun s1 => B.start.bind fun s2 =>
    (ptSameAs s1 s2 prec).bind fun r1 =>
    if r1 ≠ .t then .ok r1
    else A.endB.bind fun e1 => B.endB.bind fun e2 => ptSameAs e1 e2 prec

/-- interval.js lines 252-328 (`sameAs`), translated block by block: the
open-ended-null high block (lines 255-281), the open-ended-null low block
(lines 282-296), then the tail above. -/
def sameAs (A B : Interval) (prec : Option Nat) : Except String TV :=
  let tail3 : Except String TV := sameAsTail A B prec
  if (A.low.isSome && B.low.isSome && A.high.isNone && B.high.isSome && !A.highClosed) ||
     (A.low.isSome && B.low.isSome && A.high.isSome && B.high.isNone && !B.highClosed) ||
     (A.low.isSome && B.low.isSome && A.high.isNone && B.high.isNone &&
       !B.highClosed && !A.highClosed) then
    if isNumVal A.low then
      A.start.bind fun s1 => B.start.bind fun s2 =>
      if !jsEqq s1 s2 then .ok .f else tail3
    else
      A.start.bind fun s1 => B.start.bind fun s2 =>
      (ptSameAs s1 s2 prec).bind fun r =>
      if r ≠ .t then .ok .f else tail3
  else if (A.low.isSome && B.low.isNone && A.high.isSome && B.high.isSome) ||
          (A.low.isNone && B.low.isSome && A.high.isSome && B.high.isSome) ||
          (A.low.isNone && B.low.isNone && A.high.isSome && B.high.isSome) then
    if isNumVal A.high then
      A.endB.bind fun e1 => B.endB.bind fun e2 =>
      if !jsEqq e1 e2 then .ok .f else tail3
    else
      A.endB.bind fun e1 => B.endB.bind fun e2 =>
      (ptSameAs e1 e2 prec).bind fun r =>
      if r ≠ .t then .ok .f else tail3
  else tail3

end Interval

/-- JS Math.round: round half toward positive infinity. -/
def jsRound (q : ℚ) : ℤ := ⌊q + 1 / 2⌋

/-- Rounding to 8 decimal places as in interval.js lines 479 and 484. -/
def round8 (q : ℚ) : ℚ := (jsRound (q * 10 ^ 8) : ℚ) / 10 ^ 8

/-- JS `v != null && v.isUncertainty`. -/
def isUncB : Val → Bool
  | some (.unc _ _) => true
  | _ => false

namespace Interval

/-- interval.js lines 458-486 (`width`): the date/time guard is unreachable
for the modelled points and is omitted; an Uncertainty closed-form
boundary yields null; a quantity interval requires matching units and
returns the UNROUNDED absolute difference as a quantity, because the
source computes the 8-decimal rounding on line 479 but discards it; the
numeric path returns the rounded absolute difference.  A null closed-form
low is dereferenced by the isQuantity check and raises, and arithmetic on
mixed-type boundaries is outside the modelled universe. -/
def width (A : Interval) : Except String (Option Pt) :=
  let closed := A.toClosed
  if isUncB closed.low || isUncB closed.high then .ok none
  else
    match closed.low with
    | none => .error msgWidthNull
    | some (.unc _ _) => .ok none
    | some (.qty lv lu) =>
      match closed.high with
      | some (.qty hv hu) =>
          if lu ≠ hu then .error msgWidthUnits
          else .ok (some (.qty |hv - lv| lu))
      | _ => .error msgWidthUnits
    | some (.num lq) =>
      match closed.high with
      | some (.num hq) => .ok (some (.num (round8 |hq - lq|)))
      | _ => .error msgWidthMixed

end Interval

/-- Decidable equality for Except results, so that concrete evaluations can
be settled by decide. -/
instance {ε α : Type} [DecidableEq ε] [DecidableEq α] : DecidableEq (Except ε α) := fun a b =>
  match a, b with
  | .error e1, .error e2 =>
      if h : e1 = e2 then .isTrue (by rw [h])
      else .isFalse (by intro hh; injection hh; contradiction)
  | .ok v1, .ok v2 =>
      if h : v1 = v2 then .isTrue (by rw [h])
      else .isFalse (by intro hh; injection hh; contradiction)
  | .error _, .ok _ => .isFalse (by intro hh; injection hh)
  | .ok _, .error _ => .isFalse (by intro hh; injection hh)

/-- The closed-form low boundary value of a bounded plain-number boundary:
the value itself when closed, its successor when open. -/
def cloQ (l : ℚ) (lc : Bool) : ℚ := if lc then l else l + 1

/-- The closed-form high boundary value of a bounded plain-number boundary:
the value itself when closed, its predecessor when open. -/
def chiQ (h : ℚ) (hc : Bool) : ℚ := if hc then h else h - 1

/-- A boundary slot of a plain-number interval: null or a plain number. -/
def numOrNone (v : Val) : Prop := v = none ∨ ∃ q : ℚ, v = some (.num q)

theorem map_some_ne_ok_none (r : Except String Interval) : r.map some ≠ Except.ok none := by
  intro h
  cases r <;> simp [Except.map] at h

theorem cmpEquals_num (x y : ℚ) :
    cmpEquals (some (.num x)) (some (.num y)) = .ok (if x = y then .t else .f) := by
  by_cases h : x = y
  · simp [cmpEquals, cmpWith, rangeOf, eq3, Except.bind, h]
  · have hlt : x < y ∨ y < x := lt_or_gt_of_ne h
    simp [cmpEquals, cmpWith, rangeOf, eq3, Except.bind, h, hlt]

theorem cmpLte_num (x y : ℚ) (p : Option Nat) :
    cmpLessThanOrEquals (some (.num x)) (some (.num y)) p = .ok (if x ≤ y then .t else .f) := by
  by_cases h : x ≤ y
  · simp [cmpLessThanOrEquals, cmpWith, rangeOf, le3, Except.bind, h]
  · have hlt : y < x := lt_of_not_le h
    simp [cmpLessThanOrEquals, cmpWith, rangeOf, le3, Except.bind, h, hlt]

theorem cmpLt_num (x y : ℚ) (p : Option Nat) :
    cmpLessThan (some (.num x)) (some (.num y)) p = .ok (if x < y then .t else .f) := by
  by_cases h : x < y
  · simp [cmpLessThan, cmpWith, rangeOf, lt3, Except.bind, h]
  · have hle : y ≤ x := le_of_not_lt h
    simp [cmpLessThan, cmpWith, rangeOf, lt3, Except.bind, h, hle]

theorem cmpGte_num (x y : ℚ) (p : Option Nat) :
    cmpGreaterThanOrEquals (some (.num x)) (some (.num y)) p = .ok (if y ≤ x then .t else .f) := by
  by_cases h : y ≤ x
  · simp [cmpGreaterThanOrEquals, cmpWith, rangeOf, le3, Except.bind, h]
  · have hlt : x < y := lt_of_not_le h
    simp [cmpGreaterThanOrEquals, cmpWith, rangeOf, le3, Except.bind, h, hlt]

theorem cmpGt_num (x y : ℚ) (p : Option Nat) :
    cmpGreaterThan (some (.num x)) (some (.num y)) p = .ok (if y < x then .t else .f) := by
  by_cases h : y < x
  · simp [cmpGreaterThan, cmpWith, rangeOf, lt3, Except.bind, h]
  · have hle : x ≤ y := le_of_not_lt h
    simp [cmpGreaterThan, cmpWith, rangeOf, lt3, Except.bind, h, hle]

theorem cmpWith_noneR (R : ℚ × ℚ → ℚ × ℚ → TV) (a : Val) : cmpWith R a none = .ok .u := by
  cases a with
  | none => rfl
  | some p => cases p <;> rfl

theorem toClosed_num (l h : ℚ) (lc hc : Bool) :
    Interval.toClosed ⟨some (.num l), some (.num h), lc, hc⟩ =
      ⟨some (.num (cloQ l lc)), some (.num (chiQ h hc)), true, true⟩ := by
  cases lc <;> cases hc <;>
    simp [Interval.toClosed, Pt.isSteppable, Pt.succP, Pt.predP, cloQ, chiQ]

theorem toClosed_noneLow (h : ℚ) (hc : Bool) :
    Interval.toClosed ⟨none, some (.num h), true, hc⟩ =
      ⟨some (.num minNum), some (.num (chiQ h hc)), true, true⟩ := by
  cases hc <;>
    simp [Interval.toClosed, Pt.isSteppable, Pt.predP, chiQ, minValueForInstance]

theorem toClosed_noneHigh (l : ℚ) (lc : Bool) :
    Interval.toClosed ⟨some (.num l), none, lc, true⟩ =
      ⟨some (.num (cloQ l lc)), some (.num maxNum), true, true⟩ := by
  cases lc <;>
    simp [Interval.toClosed, Pt.isSteppable, Pt.succP, cloQ, maxValueForInstance]

theorem toClosed_steppable_closed (l h : Pt) (hl : l.isSteppable = true) :
    Interval.toClosed ⟨some l, some h, true, true⟩ = ⟨some l, some h, true, true⟩ := by
  simp [Interval.toClosed, hl]

theorem toClosed_idem (A : Interval) : A.toClosed.toClosed = A.toClosed := by
  obtain ⟨lo, hi, lc, hc⟩ := A
  cases lo with
  | some p =>
    cases p with
    | unc a b => simp [Interval.toClosed, Pt.isSteppable]
    | num q =>
      cases hi with
      | none =>
        cases lc <;> cases hc <;>
          simp [Interval.toClosed, Pt.isSteppable, Pt.succP, Pt.predP,
            minValueForInstance, maxValueForInstance]
      | some ph =>
        cases ph <;> cases lc <;> cases hc <;>
          simp [Interval.toClosed, Pt.isSteppable, Pt.succP, Pt.predP,
            minValueForInstance, maxValueForInstance]
    | qty v u =>
      cases hi with
      | none =>
        cases lc <;> cases hc <;>
          simp [Interval.toClosed, Pt.isSteppable, Pt.succP, Pt.predP,
            minValueForInstance, maxValueForInstance]
      | some ph =>
        cases ph <;> cases lc <;> cases hc <;>
          simp [Interval.toClosed, Pt.isSteppable, Pt.succP, Pt.predP,
            minValueForInstance, maxValueForInstance]
  | none =>
    cases hi with
    | none => simp [Interval.toClosed]
    | some p =>
      cases p <;> cases lc <;> cases hc <;>
        simp [Interval.toClosed, Pt.isSteppable, Pt.succP, Pt.predP,
          minValueForInstance, maxValueForInstance]

theorem toClosed_deg (q : Pt) :
    Interval.toClosed ⟨some q, some q, true, true⟩ = ⟨some q, some q, true, true⟩ := by
  cases q <;> simp [Interval.toClosed, Pt.isSteppable]

theorem toClosed_shapeNum (A : Interval)
    (h1 : numOrNone A.low) (h2 : numOrNone A.high)
    (h3 : A.low = none → A.lowClosed = true) (h4 : A.high = none → A.highClosed = true)
    (h5 : ¬(A.low = none ∧ A.high = none)) :
    ∃ a b : ℚ, A.toClosed = ⟨some (.num a), some (.num b), true, true⟩ := by
  obtain ⟨lo, hi, lc, hc⟩ := A
  simp only at h1 h2 h3 h4 h5
  rcases h1 with hlo | ⟨ql, hlo⟩ <;> rcases h2 with hhi | ⟨qh, hhi⟩ <;> subst hlo <;> subst hhi
  · exact absurd ⟨rfl, rfl⟩ h5
  · have := h3 rfl
    subst this
    exact ⟨minNum, chiQ qh hc, toClosed_noneLow qh hc⟩
  · have := h4 rfl
    subst this
    exact ⟨cloQ ql lc, maxNum, toClosed_noneHigh ql lc⟩
  · exact ⟨cloQ ql lc, chiQ qh hc, toClosed_num ql qh lc hc⟩

theorem equals_of_closed_num (X Y : Interval) (a b c d : ℚ)
    (hX : X.toClosed = ⟨some (.num a), some (.num b), true, true⟩)
    (hY : Y.toClosed = ⟨some (.num c), some (.num d), true, true⟩) :
    X.equals (.iv Y) =
      .ok (TV.and3 (if a = c then .t else .f) (if b = d then .t else .f)) := by
  simp [Interval.equals, hX, hY, cmpEquals_num, Except.bind]

theorem cmpEquals_none_left (p : Val) : cmpEquals none p = .ok .u := by
  cases p with
  | none => rfl
  | some q => cases q <;> rfl

/-- C1: for a point argument, contains is three-valued and closed-boundary
equality short-circuits to true (for either boundary); a closed bounded
boundary admits the point via non-strict comparison and an open boundary
via strict comparison (shown on plain-number intervals); an interval
argument is a usage error; and in particular
Interval(1,5,true,true).contains(3) is true, .contains(5) is true,
Interval(1,5,true,false).contains(5) is false, and .contains(null) is
unknown. -/
theorem claim_C1 :
    (∀ (A : Interval) (p : Val) (prec : Option Nat),
      A.lowClosed = true → cmpEquals A.low p = .ok .t →
      A.contains (.pt p) prec = .ok .t) ∧
    (∀ (A : Interval) (p : Val) (prec : Option Nat) (c : TV),
      A.highClosed = true → cmpEquals A.high p = .ok .t → cmpEquals A.low p = .ok c →
      A.contains (.pt p) prec = .ok .t) ∧
    (∀ (lo hi q : ℚ) (prec : Option Nat), lo ≤ hi →
      Interval.contains ⟨some (.num lo), some (.num hi), true, true⟩
        (.pt (some (.num q))) prec = .ok (if lo ≤ q ∧ q ≤ hi then .t else .f)) ∧
    (∀ (lo hi q : ℚ) (prec : Option Nat), lo < hi →
      Interval.contains ⟨some (.num lo), some (.num hi), true, false⟩
        (.pt (some (.num q))) prec = .ok (if lo ≤ q ∧ q < hi then .t else .f)) ∧
    (∀ (A B : Interval) (prec : Option Nat), A.contains (.iv B) prec = .error msgContains) ∧
    Interval.contains ⟨some (.num 1), some (.num 5), true, true⟩
      (.pt (some (.num 3))) none = .ok .t ∧
    Interval.contains ⟨some (.num 1), some (.num 5), true, true⟩
      (.pt (some (.num 5))) none = .ok .t ∧
    Interval.contains ⟨some (.num 1), some (.num 5), true, false⟩
      (.pt (some (.num 5))) none = .ok .f ∧
    Interval.contains ⟨some (.num 1), some (.num 5), true, true⟩
      (.pt none) none = .ok .u := by
  refine ⟨?_, ?_, ?_, ?_, ?_, by decide, by decide, by decide, by decide⟩
  · intro A p prec hlc heq
    have hne : A.low ≠ none := by
      intro h
      rw [h, cmpEquals_none_left] at heq
      exact TV.noConfusion (Except.ok.inj heq)
    simp [Interval.contains, hlc, hne, heq, Except.bind]
  · intro A p prec c hhc heq hlo
    have hne : A.high ≠ none := by
      intro h
      rw [h, cmpEquals_none_left] at heq
      exact TV.noConfusion (Except.ok.inj heq)
    by_cases h1 : A.lowClosed = true ∧ A.low ≠ none
    · by_cases hc : c = .t
      · subst hc
        simp [Interval.contains, h1, hlo, Except.bind]
      · simp [Interval.contains, h1, hlo, hc, hhc, hne, heq, Except.bind]
    · simp [Interval.contains, h1, hhc, hne, heq, Except.bind]
  · intro lo hi q prec h
    by_cases h1 : lo = q
    · subst h1
      simp [Interval.contains, cmpEquals_num, Except.bind, le_refl, h]
    · by_cases h2 : hi = q
      · subst h2
        simp [Interval.contains, cmpEquals_num, Except.bind, h1, le_refl, h]
      · by_cases h3 : lo ≤ q <;> by_cases h4 : q ≤ hi <;>
          simp [Interval.contains, cmpEquals_num, cmpLte_num, cmpGte_num, Except.bind,
            h1, h2, h3, h4, TV.and3]
  · intro lo hi q prec h
    by_cases h1 : lo = q
    · subst h1
      simp [Interval.contains, cmpEquals_num, cmpLte_num, cmpGt_num, Except.bind,
        le_refl, h, TV.and3]
    · by_cases h3 : lo ≤ q <;> by_cases h4 : q < hi <;>
        simp [Interval.contains, cmpEquals_num, cmpLte_num, cmpGt_num, Except.bind,
          h1, h3, h4, TV.and3]
  · intro A B prec
    rfl

/-- C1 witness: the general closed-boundary characterization applied at the
concrete interval Interval(1,5,true,true) and point 4. -/
theorem claim_C1_witness :
    Interval.contains ⟨some (.num 1), some (.num 5), true, true⟩
      (.pt (some (.num 4))) none = .ok (if (1 : ℚ) ≤ 4 ∧ (4 : ℚ) ≤ 5 then .t else .f) :=
  claim_C1.2.2.1 1 5 4 none (by norm_num)

theorem unionChoose_num (l1 h1 l2 h2 : ℚ) (lc1 hc1 lc2 hc2 : Bool) :
    Interval.unionChoose ⟨some (.num l1), some (.num h1), lc1, hc1⟩
        ⟨some (.num l2), some (.num h2), lc2, hc2⟩ =
      .ok ⟨if cloQ l1 lc1 ≤ cloQ l2 lc2 then some (.num l1) else some (.num l2),
           if chiQ h2 hc2 ≤ chiQ h1 hc1 then some (.num h1) else some (.num h2),
           if cloQ l1 lc1 ≤ cloQ l2 lc2 then lc1 else lc2,
           if chiQ h2 hc2 ≤ chiQ h1 hc1 then hc1 else hc2⟩ := by
  by_cases hl : cloQ l1 lc1 ≤ cloQ l2 lc2 <;> by_cases hh : chiQ h2 hc2 ≤ chiQ h1 hc1
  · simp [Interval.unionChoose, toClosed_num, cmpLte_num, cmpGte_num, Except.bind, hl, hh]
  · have hh2 : chiQ h1 hc1 ≤ chiQ h2 hc2 := le_of_not_le hh
    simp [Interval.unionChoose, toClosed_num, cmpLte_num, cmpGte_num, Except.bind, hl, hh, hh2]
  · have hl2 : cloQ l2 lc2 ≤ cloQ l1 lc1 := le_of_not_le hl
    simp [Interval.unionChoose, toClosed_num, cmpLte_num, cmpGte_num, Except.bind, hl, hh, hl2]
  · have hl2 : cloQ l2 lc2 ≤ cloQ l1 lc1 := le_of_not_le hl
    have hh2 : chiQ h1 hc1 ≤ chiQ h2 hc2 := le_of_not_le hh
    simp [Interval.unionChoose, toClosed_num, cmpLte_num, cmpGte_num, Except.bind,
      hl, hh, hl2, hh2]

theorem union_ok_some_inv (A B C : Interval) (h : A.union B = .ok (some C)) :
    Interval.unionChoose A B = .ok C := by
  unfold Interval.union at h
  rcases hov : A.overlaps (.iv B) none with e | ov
  · rw [hov] at h
    exact absurd h (by simp [Except.bind])
  · rw [hov] at h
    simp only [Except.bind] at h
    by_cases hc : ov = .t ∨ A.meets B none = .t
    · rw [if_pos hc] at h
      rcases hch : Interval.unionChoose A B with e | D
      · rw [hch] at h
        exact absurd h (by simp [Except.map])
      · rw [hch] at h
        simp [Except.map] at h
        rw [h]
    · rw [if_neg hc] at h
      exact absurd h (by simp)

/-- C2: union of two intervals returns the no-result sentinel (null,
distinct from three-valued unknown) exactly when the overlaps-or-meets
guard fails, i.e. when neither overlaps nor meets evaluates to true;
otherwise it returns an interval whose boundaries are the outermost of
the two operands (shown for bounded plain-number intervals: each
resulting boundary and closed flag is taken from the operand whose closed
form extends further out, ties going to the receiver); in particular
Interval(1,5).union(Interval(3,8)) = Interval(1,8,true,true). -/
theorem claim_C2 :
    (∀ (A B : Interval) (ov : TV), A.overlaps (.iv B) none = .ok ov →
      (A.union B = .ok none ↔ ¬(ov = .t ∨ A.meets B none = .t))) ∧
    (∀ (l1 h1 l2 h2 : ℚ) (lc1 hc1 lc2 hc2 : Bool) (C : Interval),
      Interval.union ⟨some (.num l1), some (.num h1), lc1, hc1⟩
          ⟨some (.num l2), some (.num h2), lc2, hc2⟩ = .ok (some C) →
      C = ⟨if cloQ l1 lc1 ≤ cloQ l2 lc2 then some (.num l1) else some (.num l2),
           if chiQ h2 hc2 ≤ chiQ h1 hc1 then some (.num h1) else some (.num h2),
           if cloQ l1 lc1 ≤ cloQ l2 lc2 then lc1 else lc2,
           if chiQ h2 hc2 ≤ chiQ h1 hc1 then hc1 else hc2⟩) ∧
    Interval.union ⟨some (.num 1), some (.num 5), true, true⟩
        ⟨some (.num 3), some (.num 8), true, true⟩ =
      .ok (some ⟨some (.num 1), some (.num 8), true, true⟩) := by
  refine ⟨?_, ?_, by decide⟩
  · intro A B ov hov
    unfold Interval.union
    rw [hov]
    simp only [Except.bind]
    by_cases hc : ov = .t ∨ A.meets B none = .t
    · rw [if_pos hc]
      constructor
      · intro h
        exact absurd h (map_some_ne_ok_none _)
      · intro h
        exact absurd hc h
    · rw [if_neg hc]
      simp [hc]
  · intro l1 h1 l2 h2 lc1 hc1 lc2 hc2 C h
    have h2' := union_ok_some_inv _ _ _ h
    rw [unionChoose_num] at h2'
    exact (Except.ok.inj h2').symm

/-- C2 witness: the sentinel characterization applied at the concrete
intervals Interval(1,5) and Interval(3,8), which overlap. -/
theorem claim_C2_witness :
    Interval.union ⟨some (.num 1), some (.num 5), true, true⟩
        ⟨some (.num 3), some (.num 8), true, true⟩ = .ok none ↔
      ¬((TV.t = TV.t) ∨
        Interval.meets ⟨some (.num 1), some (.num 5), true, true⟩
          ⟨some (.num 3), some (.num 8), true, true⟩ none = .t) :=
  claim_C2.1 ⟨some (.num 1), some (.num 5), true, true⟩
    ⟨some (.num 3), some (.num 8), true, true⟩ .t (by decide)

/-- C3: except returns the receiver unchanged when overlap is decidably
false; when overlapsBefore is decidably true and overlapsAfter decidably
false it returns the left remainder with the boundary adjacent to the
argument flipped to the opposite open/closed state (and symmetrically for
the after-only case); every other pattern — including an unknown overlap
— yields the no-result sentinel; in particular
Interval(1,10).except(Interval(5,10)) = Interval(1,5,true,false). -/
theorem claim_C3 :
    (∀ (A B : Interval), A.overlaps (.iv B) none = .ok .f →
      A.except (.iv B) = .ok (some A)) ∧
    (∀ (A B : Interval), A.overlaps (.iv B) none = .ok .t →
      A.overlapsBefore (.iv B) none = .ok .t → A.overlapsAfter (.iv B) none = .ok .f →
      A.except (.iv B) = .ok (some ⟨A.low, B.low, A.lowClosed, !B.lowClosed⟩)) ∧
    (∀ (A B : Interval), A.overlaps (.iv B) none = .ok .t →
      A.overlapsAfter (.iv B) none = .ok .t → A.overlapsBefore (.iv B) none = .ok .f →
      A.except (.iv B) = .ok (some ⟨B.high, A.high, !B.highClosed, A.highClosed⟩)) ∧
    (∀ (A B : Interval) (b a : TV), A.overlaps (.iv B) none = .ok .t →
      A.overlapsBefore (.iv B) none = .ok b → A.overlapsAfter (.iv B) none = .ok a →
      ¬(b = .t ∧ a = .f) → ¬(a = .t ∧ b = .f) →
      A.except (.iv B) = .ok none) ∧
    (∀ (A B : Interval), A.overlaps (.iv B) none = .ok .u →
      A.except (.iv B) = .ok none) ∧
    Interval.except ⟨some (.num 1), some (.num 10), true, true⟩
        (.iv ⟨some (.num 5), some (.num 10), true, true⟩) =
      .ok (some ⟨some (.num 1), some (.num 5), true, false⟩) := by
  refine ⟨?_, ?_, ?_, ?_, ?_, by decide⟩
  · intro A B hov
    simp [Interval.except, hov, Except.bind]
  · intro A B hov hb ha
    simp [Interval.except, hov, hb, ha, Except.bind]
  · intro A B hov ha hb
    simp [Interval.except, hov, ha, hb, Except.bind]
  · intro A B b a hov hb ha hn1 hn2
    simp [Interval.except, hov, hb, ha, Except.bind, hn1, hn2]
  · intro A B hov
    simp [Interval.except, hov, Except.bind]

/-- C3 witness: the one-sided-overlap case applied at the concrete
intervals Interval(1,10) and Interval(5,10). -/
theorem claim_C3_witness :
    Interval.except ⟨some (.num 1), some (.num 10), true, true⟩
        (.iv ⟨some (.num 5), some (.num 10), true, true⟩) =
      .ok (some ⟨some (.num 1), some (.num 5), true, !true⟩) :=
  claim_C3.2.1 ⟨some (.num 1), some (.num 10), true, true⟩
    ⟨some (.num 5), some (.num 10), true, true⟩ (by decide) (by decide) (by decide)

/-- C4 counterexample: for the fully unbounded interval A =
Interval(null,null,true,true), A.equals(A), A.includes(A) and
A.overlaps(A) all evaluate to unknown (null), not true, because the
closed-form boundary comparisons against null are unknown; so the claimed
unrestricted reflexivity fails. -/
theorem claim_C4_cex :
    Interval.equals ⟨none, none, true, true⟩ (.iv ⟨none, none, true, true⟩) = .ok .u ∧
    Interval.includes ⟨none, none, true, true⟩ (.iv ⟨none, none, true, true⟩) none = .ok .u ∧
    Interval.overlaps ⟨none, none, true, true⟩ (.iv ⟨none, none, true, true⟩) none = .ok .u ∧
    ¬(Interval.equals ⟨none, none, true, true⟩ (.iv ⟨none, none, true, true⟩) = .ok .t) := by
  decide

/-- C4 (amended): equals, includes and overlaps are reflexive with value
true for plain-number intervals in which every null boundary is closed
and at least one boundary is bounded; overlaps additionally requires the
closed form to be nonempty (closed low at most closed high).  Without
these restrictions — e.g. for the fully unbounded interval, or when a
closed-form boundary is an Uncertainty — the operators return unknown
(or false for an empty closed form under overlaps) rather than true. -/
theorem claim_C4 :
    ∀ A : Interval,
      numOrNone A.low → numOrNone A.high →
      (A.low = none → A.lowClosed = true) → (A.high = none → A.highClosed = true) →
      ¬(A.low = none ∧ A.high = none) →
      A.equals (.iv A) = .ok .t ∧
      A.includes (.iv A) none = .ok .t ∧
      (cmpLessThanOrEquals A.toClosed.low A.toClosed.high none = .ok .t →
        A.overlaps (.iv A) none = .ok .t) := by
  intro A h1 h2 h3 h4 h5
  obtain ⟨a, b, hs⟩ := toClosed_shapeNum A h1 h2 h3 h4 h5
  refine ⟨?_, ?_, ?_⟩
  · rw [equals_of_closed_num A A a b a b hs hs]
    simp [TV.and3]
  · simp [Interval.includes, hs, cmpLte_num, cmpGte_num, Except.bind, le_refl, TV.and3]
  · intro hle
    rw [hs] at hle
    rw [cmpLte_num] at hle
    have hab : a ≤ b := by
      by_cases h : a ≤ b
      · exact h
      · rw [if_neg h] at hle
        exact absurd (Except.ok.inj hle) (by decide)
    simp [Interval.overlaps, hs, cmpLte_num, cmpGte_num, Except.bind, hab, TV.and3]

/-- C4 witness: reflexivity applied at the concrete interval
Interval(1,5,true,true). -/
theorem claim_C4_witness :
    Interval.equals ⟨some (.num 1), some (.num 5), true, true⟩
        (.iv ⟨some (.num 1), some (.num 5), true, true⟩) = .ok .t ∧
    Interval.includes ⟨some (.num 1), some (.num 5), true, true⟩
        (.iv ⟨some (.num 1), some (.num 5), true, true⟩) none = .ok .t ∧
    Interval.overlaps ⟨some (.num 1), some (.num 5), true, true⟩
        (.iv ⟨some (.num 1), some (.num 5), true, true⟩) none = .ok .t := by
  have h := claim_C4 ⟨some (.num 1), some (.num 5), true, true⟩
    (Or.inr ⟨1, rfl⟩) (Or.inr ⟨5, rfl⟩) (by decide) (by decide) (by decide)
  exact ⟨h.1, h.2.1, h.2.2 (by decide)⟩

/-- C5 counterexample: for A = Interval(null,5,false,true) over numbers,
toClosed wraps the remaining open-null low boundary in an Uncertainty, so
A.toClosed().toClosed().equals(A.toClosed()) evaluates to unknown — not
true — because closed-form self-equality of an Uncertainty boundary is
unknown; the equals-based idempotence statement therefore fails. -/
theorem claim_C5_cex :
    Interval.equals
        (Interval.toClosed (Interval.toClosed ⟨none, some (.num 5), false, true⟩))
        (.iv (Interval.toClosed ⟨none, some (.num 5), false, true⟩)) = .ok .u ∧
    ¬(Interval.equals
        (Interval.toClosed (Interval.toClosed ⟨none, some (.num 5), false, true⟩))
        (.iv (Interval.toClosed ⟨none, some (.num 5), false, true⟩)) = .ok .t) := by
  decide

/-- C5 (amended): toClosed is structurally idempotent — for every interval,
applying toClosed a second time returns the identical interval (same
boundaries and flags); the equals-based formulation
A.toClosed().toClosed().equals(A.toClosed()) == true additionally holds
for plain-number intervals whose null boundaries are closed and which
have at least one bounded boundary, but evaluates to unknown — not true
— when the closed form contains an Uncertainty-wrapped or null boundary. -/
theorem claim_C5 :
    (∀ A : Interval, A.toClosed.toClosed = A.toClosed) ∧
    (∀ A : Interval,
      numOrNone A.low → numOrNone A.high →
      (A.low = none → A.lowClosed = true) → (A.high = none → A.highClosed = true) →
      ¬(A.low = none ∧ A.high = none) →
      Interval.equals A.toClosed.toClosed (.iv A.toClosed) = .ok .t) := by
  refine ⟨toClosed_idem, ?_⟩
  intro A h1 h2 h3 h4 h5
  obtain ⟨a, b, hs⟩ := toClosed_shapeNum A h1 h2 h3 h4 h5
  have hX : A.toClosed.toClosed = ⟨some (.num a), some (.num b), true, true⟩ := by
    rw [toClosed_idem]
    exact hs
  rw [toClosed_idem]
  rw [equals_of_closed_num A.toClosed A.toClosed a b a b hX hX]
  simp [TV.and3]

/-- C5 witness: idempotence applied at the concrete half-open interval
Interval(1,5,false,true). -/
theorem claim_C5_witness :
    Interval.toClosed (Interval.toClosed ⟨some (.num 1), some (.num 5), false, true⟩) =
      Interval.toClosed ⟨some (.num 1), some (.num 5), false, true⟩ ∧
    Interval.equals
        (Interval.toClosed (Interval.toClosed ⟨some (.num 1), some (.num 5), false, true⟩))
        (.iv (Interval.toClosed ⟨some (.num 1), some (.num 5), false, true⟩)) = .ok .t :=
  ⟨claim_C5.1 ⟨some (.num 1), some (.num 5), false, true⟩,
   claim_C5.2 ⟨some (.num 1), some (.num 5), false, true⟩
     (Or.inr ⟨1, rfl⟩) (Or.inr ⟨5, rfl⟩) (by decide) (by decide) (by decide)⟩

theorem intersectChoose_num (l1 h1 l2 h2 : ℚ) (lc1 hc1 lc2 hc2 : Bool) :
    Interval.intersectChoose ⟨some (.num l1), some (.num h1), lc1, hc1⟩
        ⟨some (.num l2), some (.num h2), lc2, hc2⟩ =
      .ok ⟨if cloQ l2 lc2 ≤ cloQ l1 lc1 then some (.num l1) else some (.num l2),
           if chiQ h1 hc1 ≤ chiQ h2 hc2 then some (.num h1) else some (.num h2),
           if cloQ l2 lc2 ≤ cloQ l1 lc1 then lc1 else lc2,
           if chiQ h1 hc1 ≤ chiQ h2 hc2 then hc1 else hc2⟩ := by
  by_cases hl : cloQ l2 lc2 ≤ cloQ l1 lc1 <;> by_cases hh : chiQ h1 hc1 ≤ chiQ h2 hc2
  · simp [Interval.intersectChoose, toClosed_num, cmpLte_num, cmpGte_num, Except.bind, hl, hh]
  · have hh2 : chiQ h2 hc2 ≤ chiQ h1 hc1 := le_of_not_le hh
    simp [Interval.intersectChoose, toClosed_num, cmpLte_num, cmpGte_num, Except.bind,
      hl, hh, hh2]
  · have hl2 : cloQ l1 lc1 ≤ cloQ l2 lc2 := le_of_not_le hl
    simp [Interval.intersectChoose, toClosed_num, cmpLte_num, cmpGte_num, Except.bind,
      hl, hh, hl2]
  · have hl2 : cloQ l1 lc1 ≤ cloQ l2 lc2 := le_of_not_le hl
    have hh2 : chiQ h2 hc2 ≤ chiQ h1 hc1 := le_of_not_le hh
    simp [Interval.intersectChoose, toClosed_num, cmpLte_num, cmpGte_num, Except.bind,
      hl, hh, hl2, hh2]

theorem intersect_ok_some_inv (A B C : Interval) (h : A.intersect B = .ok (some C)) :
    Interval.intersectChoose A B = .ok C := by
  unfold Interval.intersect at h
  rcases hov : A.overlaps (.iv B) none with e | ov
  · rw [hov] at h
    exact absurd h (by simp [Except.bind])
  · rw [hov] at h
    simp only [Except.bind] at h
    by_cases hc : ov = .t
    · rw [if_pos hc] at h
      rcases hch : Interval.intersectChoose A B with e | D
      · rw [hch] at h
        exact absurd h (by simp [Except.map])
      · rw [hch] at h
        simp [Except.map] at h
        rw [h]
    · rw [if_neg hc] at h
      exact absurd h (by simp)

theorem equals_num_mk (a b c d : ℚ) (f1 f2 f3 f4 : Bool)
    (hL : cloQ a f1 = cloQ c f3) (hH : chiQ b f2 = chiQ d f4) :
    Interval.equals ⟨some (.num a), some (.num b), f1, f2⟩
      (.iv ⟨some (.num c), some (.num d), f3, f4⟩) = .ok .t := by
  rw [equals_of_closed_num _ _ (cloQ a f1) (chiQ b f2) (cloQ c f3) (chiQ d f4)
    (toClosed_num a b f1 f2) (toClosed_num c d f3 f4)]
  simp [hL, hH, TV.and3]

theorem some_num_ite (c : Prop) [Decidable c] (x y : ℚ) :
    (if c then some (Pt.num x) else some (Pt.num y)) = some (Pt.num (if c then x else y)) := by
  by_cases h : c <;> simp [h]

theorem cloQ_ite (c : Prop) [Decidable c] (x y : ℚ) (b1 b2 : Bool) :
    cloQ (if c then x else y) (if c then b1 else b2) =
      if c then cloQ x b1 else cloQ y b2 := by
  by_cases h : c <;> simp [h]

theorem chiQ_ite (c : Prop) [Decidable c] (x y : ℚ) (b1 b2 : Bool) :
    chiQ (if c then x else y) (if c then b1 else b2) =
      if c then chiQ x b1 else chiQ y b2 := by
  by_cases h : c <;> simp [h]

/-- C6 counterexample: for A = Interval([0,3] uncertainty, 10) and
B = Interval([1,4] uncertainty, 10), both union directions produce the
identical interval C = Interval([0,3] uncertainty, 10, true, true) via
the merged-uncertainty branch, yet C.equals(C) evaluates to unknown — not
true — because closed-form equality of a non-degenerate Uncertainty
boundary against itself is unknown; so the claimed commutativity-up-to-
equals-true fails even though both results are non-sentinel. -/
theorem claim_C6_cex :
    Interval.union ⟨some (.unc (.num 0) (.num 3)), some (.num 10), true, true⟩
        ⟨some (.unc (.num 1) (.num 4)), some (.num 10), true, true⟩ =
      .ok (some ⟨some (.unc (.num 0) (.num 3)), some (.num 10), true, true⟩) ∧
    Interval.union ⟨some (.unc (.num 1) (.num 4)), some (.num 10), true, true⟩
        ⟨some (.unc (.num 0) (.num 3)), some (.num 10), true, true⟩ =
      .ok (some ⟨some (.unc (.num 0) (.num 3)), some (.num 10), true, true⟩) ∧
    Interval.equals ⟨some (.unc (.num 0) (.num 3)), some (.num 10), true, true⟩
        (.iv ⟨some (.unc (.num 0) (.num 3)), some (.num 10), true, true⟩) = .ok .u ∧
    ¬(Interval.equals ⟨some (.unc (.num 0) (.num 3)), some (.num 10), true, true⟩
        (.iv ⟨some (.unc (.num 0) (.num 3)), some (.num 10), true, true⟩) = .ok .t) := by
  decide

/-- C6 (amended): union and intersect are commutative up to equals-true
for bounded plain-number intervals — whenever both directions produce a
non-sentinel result, the two results are equal with value true; for other
point types the two directions can agree only up to structure (e.g. a
merged Uncertainty boundary), where equals evaluates to unknown rather
than true. -/
theorem claim_C6 :
    ∀ (l1 h1 l2 h2 : ℚ) (lc1 hc1 lc2 hc2 : Bool),
      (∀ C D : Interval,
        Interval.union ⟨some (.num l1), some (.num h1), lc1, hc1⟩
            ⟨some (.num l2), some (.num h2), lc2, hc2⟩ = .ok (some C) →
        Interval.union ⟨some (.num l2), some (.num h2), lc2, hc2⟩
            ⟨some (.num l1), some (.num h1), lc1, hc1⟩ = .ok (some D) →
        C.equals (.iv D) = .ok .t) ∧
      (∀ C D : Interval,
        Interval.intersect ⟨some (.num l1), some (.num h1), lc1, hc1⟩
            ⟨some (.num l2), some (.num h2), lc2, hc2⟩ = .ok (some C) →
        Interval.intersect ⟨some (.num l2), some (.num h2), lc2, hc2⟩
            ⟨some (.num l1), some (.num h1), lc1, hc1⟩ = .ok (some D) →
        C.equals (.iv D) = .ok .t) := by
  intro l1 h1 l2 h2 lc1 hc1 lc2 hc2
  constructor
  · intro C D hC hD
    have hC' := union_ok_some_inv _ _ _ hC
    rw [unionChoose_num] at hC'
    have hC2 := (Except.ok.inj hC').symm
    have hD' := union_ok_some_inv _ _ _ hD
    rw [unionChoose_num] at hD'
    have hD2 := (Except.ok.inj hD').symm
    subst hC2
    subst hD2
    rw [some_num_ite, some_num_ite, some_num_ite, some_num_ite]
    apply equals_num_mk
    · rw [cloQ_ite, cloQ_ite, ← min_def, ← min_def]
      exact min_comm _ _
    · rw [chiQ_ite, chiQ_ite]
      have e1 : (if chiQ h2 hc2 ≤ chiQ h1 hc1 then chiQ h1 hc1 else chiQ h2 hc2) =
          max (chiQ h2 hc2) (chiQ h1 hc1) := (max_def _ _).symm
      have e2 : (if chiQ h1 hc1 ≤ chiQ h2 hc2 then chiQ h2 hc2 else chiQ h1 hc1) =
          max (chiQ h1 hc1) (chiQ h2 hc2) := (max_def _ _).symm
      rw [e1, e2]
      exact max_comm _ _
  · intro C D hC hD
    have hC' := intersect_ok_some_inv _ _ _ hC
    rw [intersectChoose_num] at hC'
    have hC2 := (Except.ok.inj hC').symm
    have hD' := intersect_ok_some_inv _ _ _ hD
    rw [intersectChoose_num] at hD'
    have hD2 := (Except.ok.inj hD').symm
    subst hC2
    subst hD2
    rw [some_num_ite, some_num_ite, some_num_ite, some_num_ite]
    apply equals_num_mk
    · rw [cloQ_ite, cloQ_ite]
      have e1 : (if cloQ l2 lc2 ≤ cloQ l1 lc1 then cloQ l1 lc1 else cloQ l2 lc2) =
          max (cloQ l2 lc2) (cloQ l1 lc1) := (max_def _ _).symm
      have e2 : (if cloQ l1 lc1 ≤ cloQ l2 lc2 then cloQ l2 lc2 else cloQ l1 lc1) =
          max (cloQ l1 lc1) (cloQ l2 lc2) := (max_def _ _).symm
      rw [e1, e2]
      exact max_comm _ _
    · rw [chiQ_ite, chiQ_ite, ← min_def, ← min_def]
      exact min_comm _ _

/-- C6 witness: commutativity applied at the concrete overlapping intervals
Interval(1,5) and Interval(3,8), for both union and intersect. -/
theorem claim_C6_witness :
    Interval.equals ⟨some (.num 1), some (.num 8), true, true⟩
      (.iv ⟨some (.num 1), some (.num 8), true, true⟩) = .ok .t ∧
    Interval.equals ⟨some (.num 3), some (.num 5), true, true⟩
      (.iv ⟨some (.num 3), some (.num 5), true, true⟩) = .ok .t :=
  ⟨(claim_C6 1 5 3 8 true true true true).1
      ⟨some (.num 1), some (.num 8), true, true⟩
      ⟨some (.num 1), some (.num 8), true, true⟩ (by decide) (by decide),
   (claim_C6 1 5 3 8 true true true true).2
      ⟨some (.num 3), some (.num 5), true, true⟩
      ⟨some (.num 3), some (.num 5), true, true⟩ (by decide) (by decide)⟩

/-- C7: the quantity path of width returns the UNROUNDED absolute
difference, because the 8-decimal rounding computed on interval.js line
479 is discarded: for the quantity interval [0 m, 1e-9 m] the source
returns Quantity(1e-9, m) even though rounding |high - low| to 8 decimal
places gives 0 — contradicting the documented behaviour, which the
number path (line 484) does implement; the remaining clauses behave as
claimed: Interval(1,5).width() = 4 (rounded number path), a unit
mismatch is a usage error, and an Uncertainty closed-form boundary
yields null. -/
theorem claim_C7 :
    Interval.width ⟨some (.qty 0 "m"), some (.qty (1 / 1000000000) "m"), true, true⟩ =
      .ok (some (.qty (1 / 1000000000) "m")) ∧
    round8 (1 / 1000000000) = 0 ∧
    (1 / 1000000000 : ℚ) ≠ 0 ∧
    Interval.width ⟨some (.num 1), some (.num 5), true, true⟩ = .ok (some (.num 4)) ∧
    Interval.width ⟨some (.qty 1 "m"), some (.qty 5 "cm"), true, true⟩ =
      .error msgWidthUnits ∧
    Interval.width ⟨some (.unc (.num 0) (.num 1)), some (.num 5), true, true⟩ = .ok none := by
  refine ⟨?_, ?_, by norm_num, ?_, by decide, by decide⟩
  · have habs : |(1 / 1000000000 : ℚ) - 0| = 1 / 1000000000 := by norm_num
    calc
      Interval.width ⟨some (.qty 0 "m"), some (.qty (1 / 1000000000) "m"), true, true⟩ =
          .ok (some (.qty |(1 / 1000000000 : ℚ) - 0| "m")) := rfl
      _ = .ok (some (.qty (1 / 1000000000) "m")) := by rw [habs]
  · have hf0 : ⌊(1 / 1000000000 : ℚ) * 10 ^ 8 + 1 / 2⌋ = (0 : ℤ) := by
      rw [Int.floor_eq_iff]
      norm_num
    show ((⌊(1 / 1000000000 : ℚ) * 10 ^ 8 + 1 / 2⌋ : ℤ) : ℚ) / 10 ^ 8 = 0
    rw [hf0]
    norm_num
  · have h1 : |(5 : ℚ) - 1| = 4 := by norm_num
    have h2 : round8 (4 : ℚ) = 4 := by
      unfold round8 jsRound
      have hfl : ⌊(4 : ℚ) * 10 ^ 8 + 1 / 2⌋ = (400000000 : ℤ) := by
        rw [Int.floor_eq_iff]
        norm_num
      rw [hfl]
      norm_num
    calc
      Interval.width ⟨some (.num 1), some (.num 5), true, true⟩ =
          .ok (some (.num (round8 |(5 : ℚ) - 1|))) := rfl
      _ = .ok (some (.num 4)) := by rw [h1, h2]

/-- C8: meetsAfter and meetsBefore never propagate an exception raised in
their try-block body (for example from stepping an unbounded boundary):
whenever the body evaluates to an error, the operator returns false. -/
theorem claim_C8 :
    (∀ (A B : Interval) (prec : Option Nat) (e : String),
      Interval.meetsAfterBody A B prec = .error e → Interval.meetsAfter A B prec = .f) ∧
    (∀ (A B : Interval) (prec : Option Nat) (e : String),
      Interval.meetsBeforeBody A B prec = .error e → Interval.meetsBefore A B prec = .f) := by
  constructor
  · intro A B prec e h
    unfold Interval.meetsAfter
    rw [h]
  · intro A B prec e h
    unfold Interval.meetsBefore
    rw [h]

/-- C8 witness: for the fully unbounded interval, stepping the null closed
high boundary raises inside the body and meetsAfter reports false. -/
theorem claim_C8_witness :
    Interval.meetsAfterBody ⟨none, none, true, true⟩ ⟨none, none, true, true⟩ none =
      .error msgSucc ∧
    Interval.meetsAfter ⟨none, none, true, true⟩ ⟨none, none, true, true⟩ none = .f :=
  ⟨by decide,
   claim_C8.1 ⟨none, none, true, true⟩ ⟨none, none, true, true⟩ none msgSucc (by decide)⟩

theorem sameAsTail_openNull (A B : Interval) (prec : Option Nat)
    (h : (A.low = none ∧ A.lowClosed = false) ∨ (A.high = none ∧ A.highClosed = false) ∨
         (B.low = none ∧ B.lowClosed = false) ∨ (B.high = none ∧ B.highClosed = false)) :
    Interval.sameAsTail A B prec = .ok .u := by
  rcases h with ⟨h1, h2⟩ | ⟨h1, h2⟩ | ⟨h1, h2⟩ | ⟨h1, h2⟩ <;>
    simp [Interval.sameAsTail, h1, h2]

theorem start_some (A : Interval) (p : Pt) (h : A.low = some p) :
    A.start = .ok A.toClosed.low := by
  simp [Interval.start, h]

theorem endB_some (A : Interval) (p : Pt) (h : A.high = some p) :
    A.endB = .ok A.toClosed.high := by
  simp [Interval.endB, h]

/-- C9 counterexample: A = Interval(1, null, true, false) has an open-null
high boundary, yet A.sameAs(Interval(2,5)) returns false — not unknown —
because the open-ended-null block at the top of the source compares the
defined start endpoints (1 versus 2) and returns false before the
open-null unknown check is reached; so the claimed "unknown whenever any
boundary is open-null" fails. -/
theorem claim_C9_cex :
    Interval.sameAs ⟨some (.num 1), none, true, false⟩
        ⟨some (.num 2), some (.num 5), true, true⟩ none = .ok .f ∧
    ¬(Interval.sameAs ⟨some (.num 1), none, true, false⟩
        ⟨some (.num 2), some (.num 5), true, true⟩ none = .ok .u) := by
  decide

/-- C9 (amended): (1) if this is the fully-unbounded closed interval
Interval(null,null,true,true), sameAs returns true exactly when other is
also fully unbounded and closed; (2) if only other is the fully-unbounded
closed interval and this has no open-null boundary (and is not itself
fully unbounded), sameAs returns false — not unknown; (3) for
plain-number intervals, whenever any of the four boundaries is open-null
the result is unknown (null) UNLESS one of the two leading
defined-endpoint blocks decides false first, i.e. the result is unknown
or false — not, as claimed, always unknown. -/
theorem claim_C9 :
    (∀ (B : Interval) (prec : Option Nat),
      Interval.sameAs ⟨none, none, true, true⟩ B prec = .ok .t ↔
        (B.low = none ∧ B.lowClosed = true ∧ B.high = none ∧ B.highClosed = true)) ∧
    (∀ (A : Interval) (prec : Option Nat),
      (A.low = none → A.lowClosed = true) → (A.high = none → A.highClosed = true) →
      ¬(A.low = none ∧ A.high = none) →
      Interval.sameAs A ⟨none, none, true, true⟩ prec = .ok .f) ∧
    (∀ (A B : Interval) (prec : Option Nat),
      numOrNone A.low → numOrNone A.high → numOrNone B.low → numOrNone B.high →
      ((A.low = none ∧ A.lowClosed = false) ∨ (A.high = none ∧ A.highClosed = false) ∨
        (B.low = none ∧ B.lowClosed = false) ∨ (B.high = none ∧ B.highClosed = false)) →
      Interval.sameAs A B prec = .ok .u ∨ Interval.sameAs A B prec = .ok .f) := by
  refine ⟨?_, ?_, ?_⟩
  · intro B prec
    obtain ⟨blo, bhi, blc, bhc⟩ := B
    cases blo <;> cases bhi <;> cases blc <;> cases bhc <;>
      simp [Interval.sameAs, Interval.sameAsTail]
  · intro A prec h3 h4 h5
    obtain ⟨alo, ahi, alc, ahc⟩ := A
    cases alo with
    | none =>
      cases ahi with
      | none => exact absurd ⟨rfl, rfl⟩ h5
      | some p =>
        have hlc : alc = true := h3 rfl
        subst hlc
        simp [Interval.sameAs, Interval.sameAsTail]
    | some p =>
      cases ahi with
      | none =>
        have hhc : ahc = true := h4 rfl
        subst hhc
        simp [Interval.sameAs, Interval.sameAsTail]
      | some q =>
        simp [Interval.sameAs, Interval.sameAsTail]
  · intro A B prec n1 n2 n3 n4 hopen
    have htail := sameAsTail_openNull A B prec hopen
    by_cases hc1 :
        ((A.low.isSome && B.low.isSome && A.high.isNone && B.high.isSome && !A.highClosed) ||
         (A.low.isSome && B.low.isSome && A.high.isSome && B.high.isNone && !B.highClosed) ||
         (A.low.isSome && B.low.isSome && A.high.isNone && B.high.isNone &&
           !B.highClosed && !A.highClosed)) = true
    · obtain ⟨a, hAl⟩ : ∃ a : ℚ, A.low = some (.num a) := by
        rcases n1 with h | h
        · rw [h] at hc1
          simp at hc1
        · exact h
      obtain ⟨b, hBl⟩ : ∃ b : ℚ, B.low = some (.num b) := by
        rcases n3 with h | h
        · rw [h] at hc1
          simp at hc1
        · exact h
      have hsA := start_some A _ hAl
      have hsB := start_some B _ hBl
      have hnv : isNumVal A.low = true := by
        rw [hAl]
        rfl
      have hbranch :
          Interval.sameAs A B prec =
            (if !jsEqq A.toClosed.low B.toClosed.low then .ok .f
             else Interval.sameAsTail A B prec) := by
        simp only [Interval.sameAs]
        rw [if_pos hc1, if_pos hnv, hsA, hsB]
        simp only [Except.bind]
      rw [hbranch, htail]
      by_cases hj : jsEqq A.toClosed.low B.toClosed.low = true
      · exact Or.inl (by simp [hj])
      · rw [Bool.not_eq_true] at hj
        exact Or.inr (by simp [hj])
    · by_cases hc2 :
          ((A.low.isSome && B.low.isNone && A.high.isSome && B.high.isSome) ||
           (A.low.isNone && B.low.isSome && A.high.isSome && B.high.isSome) ||
           (A.low.isNone && B.low.isNone && A.high.isSome && B.high.isSome)) = true
      · obtain ⟨a, hAh⟩ : ∃ a : ℚ, A.high = some (.num a) := by
          rcases n2 with h | h
          · rw [h] at hc2
            simp at hc2
          · exact h
        obtain ⟨b, hBh⟩ : ∃ b : ℚ, B.high = some (.num b) := by
          rcases n4 with h | h
          · rw [h] at hc2
            simp at hc2
          · exact h
        have heA := endB_some A _ hAh
        have heB := endB_some B _ hBh
        have hnv : isNumVal A.high = true := by
          rw [hAh]
          rfl
        have hbranch :
            Interval.sameAs A B prec =
              (if !jsEqq A.toClosed.high B.toClosed.high then .ok .f
               else Interval.sameAsTail A B prec) := by
          simp only [Interval.sameAs]
          rw [if_neg hc1, if_pos hc2, if_pos hnv, heA, heB]
          simp only [Except.bind]
        rw [hbranch, htail]
        by_cases hj : jsEqq A.toClosed.high B.toClosed.high = true
        · exact Or.inl (by simp [hj])
        · rw [Bool.not_eq_true] at hj
          exact Or.inr (by simp [hj])
      · have hbranch : Interval.sameAs A B prec = Interval.sameAsTail A B prec := by
          simp only [Interval.sameAs]
          rw [if_neg hc1, if_neg hc2]
        rw [hbranch, htail]
        exact Or.inl rfl

/-- C9 witness: the fully-unbounded special cases applied at concrete
intervals — Interval(null,null) sameAs Interval(null,null) is true, and
Interval(1,5) sameAs Interval(null,null) is false. -/
theorem claim_C9_witness :
    (Interval.sameAs ⟨none, none, true, true⟩ ⟨none, none, true, true⟩ none = .ok .t ↔
      ((none : Val) = none ∧ true = true ∧ (none : Val) = none ∧ true = true)) ∧
    Interval.sameAs ⟨some (.num 1), some (.num 5), true, true⟩
      ⟨none, none, true, true⟩ none = .ok .f :=
  ⟨claim_C9.1 ⟨none, none, true, true⟩ none,
   claim_C9.2.1 ⟨some (.num 1), some (.num 5), true, true⟩ none
     (by decide) (by decide) (by decide)⟩

/-- C10: overlaps, overlapsBefore and overlapsAfter accept a point argument
p without raising a usage error, treating it as the degenerate range
[p,p]: each operator applied to the point coincides with the same
operator applied to the closed degenerate interval [p,p]; concretely,
overlaps(p) is the three-valued AND of toClosed().low <= p and
toClosed().high >= p, overlapsAfter(p) uses p as the neighbouring high
boundary (strict on this interval's high), overlapsBefore(p) uses p as
the neighbouring low boundary (strict on this interval's low), and a
null point argument yields unknown. -/
theorem claim_C10 :
    ∀ (A : Interval) (q : Pt) (prec : Option Nat),
      A.overlaps (.pt (some q)) prec =
        A.overlaps (.iv ⟨some q, some q, true, true⟩) prec ∧
      A.overlapsAfter (.pt (some q)) prec =
        A.overlapsAfter (.iv ⟨some q, some q, true, true⟩) prec ∧
      A.overlapsBefore (.pt (some q)) prec =
        A.overlapsBefore (.iv ⟨some q, some q, true, true⟩) prec ∧
      A.overlaps (.pt (some q)) prec =
        (cmpLessThanOrEquals A.toClosed.low (some q) prec).bind (fun r1 =>
          (cmpGreaterThanOrEquals A.toClosed.high (some q) prec).bind fun r2 =>
          .ok (TV.and3 r1 r2)) ∧
      A.overlapsAfter (.pt (some q)) prec =
        (cmpLessThanOrEquals A.toClosed.low (some q) prec).bind (fun r1 =>
          (cmpGreaterThan A.toClosed.high (some q) prec).bind fun r2 =>
          .ok (TV.and3 r1 r2)) ∧
      A.overlapsBefore (.pt (some q)) prec =
        (cmpLessThan A.toClosed.low (some q) prec).bind (fun r1 =>
          (cmpGreaterThanOrEquals A.toClosed.high (some q) prec).bind fun r2 =>
          .ok (TV.and3 r1 r2)) ∧
      A.overlaps (.pt none) prec = .ok .u := by
  intro A q prec
  refine ⟨?_, ?_, ?_, rfl, rfl, rfl, ?_⟩
  · simp [Interval.overlaps, toClosed_deg]
  · simp [Interval.overlapsAfter, toClosed_deg]
  · simp [Interval.overlapsBefore, toClosed_deg]
  · simp [Interval.overlaps, cmpLessThanOrEquals, cmpGreaterThanOrEquals,
      cmpWith_noneR, Except.bind, TV.and3]

end CQL
